import Mathlib

/-
Verification of the article CRUD endpoint (src/app/api/articles.ts).

The five route handlers are embedded as pure Lean functions over an explicit
repository state.  The Article record shape and the repository object live
outside src/ and are modelled from the specification, as noted on each
definition.  Each handler records, in order, the repository operations it
invokes, so that non-invocation claims can be stated.
-/

set_option maxHeartbeats 1000000

namespace ArticlesApi

/-- Modelled from the spec: the Article record shape (src/app/models/article is
not under src/).  The spec fixes a string id that is server-assigned, plus at
minimum an author reference; the concrete scenario in the spec uses the fields
title and authorId. -/
structure Article where
  id : String
  title : String
  authorId : String
deriving DecidableEq, Repr

/-- The creation input shape: the article shape with id omitted, as built by
v.omit(ArticleSchema, [id]) in the source. -/
structure ArticleData where
  title : String
  authorId : String
deriving DecidableEq, Repr

/-- The update input shape: every non-id field independently optional, as built
from the id-less creation shape in the source. -/
structure ArticlePatch where
  title : Option String
  authorId : Option String
deriving DecidableEq, Repr

/-- Repository state: the sequence of stored articles.  Modelled from the
spec: the repository object is an external collaborator whose implementation
is not under src/. -/
abbrev RepoState := List Article

/-- Modelled from the spec: findById(id) yields the stored article with that
id, or is absent. -/
def findById (s : RepoState) (id : String) : Option Article :=
  s.find? (fun a => a.id == id)

/-- Modelled from the spec: findByAuthorId(authorId) yields all articles whose
author matches. -/
def findByAuthorId (s : RepoState) (authorId : String) : List Article :=
  s.filter (fun a => a.authorId == authorId)

/-- Modelled from the spec: findAll() yields all stored articles. -/
def findAll (s : RepoState) : List Article := s

/-- The length of the longest stored id (0 when the state is empty). -/
def maxIdLen (s : RepoState) : Nat :=
  s.foldr (fun a n => max a.id.length n) 0

/-- Modelled from the spec: the repository assigns a new identity on create.
The chosen assignment is a string strictly longer than every stored id, hence
non-empty and previously unseen. -/
def freshId (s : RepoState) : String :=
  String.mk (List.replicate (maxIdLen s + 1) 'a')

/-- Modelled from the spec: create(data) persists the record under a fresh id
and yields the stored record. -/
def repoCreate (s : RepoState) (d : ArticleData) : Article × RepoState :=
  let a : Article := { id := freshId s, title := d.title, authorId := d.authorId }
  (a, s ++ [a])

/-- Applying an update patch to a record: fields present in the request body
are replaced, fields not present are left unchanged, and the id is untouched. -/
def applyPatch (a : Article) (p : ArticlePatch) : Article :=
  { id := a.id, title := p.title.getD a.title, authorId := p.authorId.getD a.authorId }

/-- Modelled from the spec: update(id, patch) applies the supplied fields to
the record with the given id. -/
def repoUpdate (s : RepoState) (id : String) (p : ArticlePatch) : RepoState :=
  s.map (fun a => if a.id == id then applyPatch a p else a)

/-- Modelled from the spec: delete(id) removes the record with the given id. -/
def repoDelete (s : RepoState) (id : String) : RepoState :=
  s.filter (fun a => !(a.id == id))

/-- The responses the handlers produce: c.text(body, status) or c.json of one
of the three response shapes; a missing status argument defaults to 200. -/
inductive Resp where
  | textResp (body : String) (status : Nat)
  | articleResp (article : Article) (status : Nat)
  | articlesResp (articles : List Article) (status : Nat)
  | messageResp (message : String) (status : Nat)
deriving DecidableEq, Repr

/-- The HTTP status carried by a response. -/
def statusOf : Resp → Nat
  | .textResp _ st => st
  | .articleResp _ st => st
  | .articlesResp _ st => st
  | .messageResp _ st => st

/-- The repository operations a handler can invoke, recorded in order. -/
inductive RepoOp where
  | findByIdOp (id : String)
  | findByAuthorIdOp (authorId : String)
  | findAllOp
  | createOp (data : ArticleData)
  | updateOp (id : String) (patch : ArticlePatch)
  | deleteOp (id : String)
deriving DecidableEq, Repr

/-- What one handler run produces: the response, the repository state after
the run, and the repository operations invoked, in order. -/
structure HandlerResult where
  resp : Resp
  state : RepoState
  calls : List RepoOp
deriving DecidableEq, Repr

/-- The GET /:id handler: findById; if absent, c.text with 404; if present,
c.json of the article payload with explicit status 200. -/
def getByIdHandler (s : RepoState) (id : String) : HandlerResult :=
  match findById s id with
  | none =>
      { resp := .textResp "Article not found" 404, state := s, calls := [.findByIdOp id] }
  | some article =>
      { resp := .articleResp article 200, state := s, calls := [.findByIdOp id] }

/-- The GET / handler: the source tests the optional authorId with a JS
conditional, which tests truthiness, so both a missing authorId and the empty
string select findAll; any other value selects findByAuthorId.  c.json without
a status defaults to 200. -/
def listHandler (s : RepoState) (authorId : Option String) : HandlerResult :=
  match authorId with
  | some a =>
      if a == "" then
        { resp := .articlesResp (findAll s) 200, state := s, calls := [.findAllOp] }
      else
        { resp := .articlesResp (findByAuthorId s a) 200, state := s,
          calls := [.findByAuthorIdOp a] }
  | none =>
      { resp := .articlesResp (findAll s) 200, state := s, calls := [.findAllOp] }

/-- The POST / handler: create from the validated id-less body, then c.json of
the stored record; default status 200. -/
def postHandler (s : RepoState) (d : ArticleData) : HandlerResult :=
  let r := repoCreate s d
  { resp := .articleResp r.1 200, state := r.2, calls := [.createOp d] }

/-- The PUT /:id handler: findById first; if absent, c.text with 404 and no
update call; if present, update with the validated patch and c.json of the
resulting full record; default status 200. -/
def putHandler (s : RepoState) (id : String) (p : ArticlePatch) : HandlerResult :=
  match findById s id with
  | none =>
      { resp := .textResp "Article not found" 404, state := s, calls := [.findByIdOp id] }
  | some existing =>
      { resp := .articleResp (applyPatch existing p) 200,
        state := repoUpdate s id p,
        calls := [.findByIdOp id, .updateOp id p] }

/-- The DELETE /:id handler: findById first; if absent, c.text with 404 and no
delete call; if present, delete then c.json of the message payload; default
status 200. -/
def deleteHandler (s : RepoState) (id : String) : HandlerResult :=
  match findById s id with
  | none =>
      { resp := .textResp "Article not found" 404, state := s, calls := [.findByIdOp id] }
  | some _ =>
      { resp := .messageResp "Article deleted successfully" 200,
        state := repoDelete s id,
        calls := [.findByIdOp id, .deleteOp id] }

/-- Every stored id is at most maxIdLen long. -/
theorem id_length_le_maxIdLen {s : RepoState} {a : Article} (h : a ∈ s) :
    a.id.length ≤ maxIdLen s := by
  induction s with
  | nil => cases h
  | cons b t ih =>
      cases h with
      | head => exact le_max_left _ _
      | tail _ h => exact (ih h).trans (le_max_right _ _)

/-- The fresh id is one character longer than the longest stored id. -/
theorem freshId_length (s : RepoState) : (freshId s).length = maxIdLen s + 1 := by
  simp [freshId, String.length]

/-- The fresh id differs from every stored id. -/
theorem freshId_not_used {s : RepoState} {a : Article} (h : a ∈ s) :
    a.id ≠ freshId s := by
  intro heq
  have h1 := id_length_le_maxIdLen h
  rw [heq, freshId_length] at h1
  omega

/-- The fresh id is non-empty. -/
theorem freshId_ne_empty (s : RepoState) : freshId s ≠ "" := by
  intro heq
  have h1 := freshId_length s
  rw [heq] at h1
  simp [String.length] at h1

/-- After deleting an id, findById on that id is absent. -/
theorem findById_repoDelete (s : RepoState) (i : String) :
    findById (repoDelete s i) i = none := by
  simp [findById, repoDelete, List.find?_eq_none, List.mem_filter]

/-- Claim C1: for every id with no matching record, GET, PUT and DELETE on
/:id each return 404 with plain-text body "Article not found", the repository
state is unchanged, and the update and delete operations are never invoked. -/
theorem c1_missing_id_yields_404 (s : RepoState) (i : String) (p : ArticlePatch)
    (h : findById s i = none) :
    (getByIdHandler s i).resp = Resp.textResp "Article not found" 404 ∧
    (getByIdHandler s i).state = s ∧
    (putHandler s i p).resp = Resp.textResp "Article not found" 404 ∧
    (putHandler s i p).state = s ∧
    (∀ j q, RepoOp.updateOp j q ∉ (putHandler s i p).calls) ∧
    (deleteHandler s i).resp = Resp.textResp "Article not found" 404 ∧
    (deleteHandler s i).state = s ∧
    (∀ j, RepoOp.deleteOp j ∉ (deleteHandler s i).calls) := by
  simp [getByIdHandler, putHandler, deleteHandler, h]

theorem c1_missing_id_yields_404_witness :
    findById [] "x" = none ∧
    (getByIdHandler [] "x").resp = Resp.textResp "Article not found" 404 :=
  ⟨rfl, (c1_missing_id_yields_404 [] "x" ⟨none, none⟩ rfl).1⟩

/-- Claim C2: PUT on an existing article with a single-field body returns 200
with the full resulting record in which only that field changed, every other
field retains its prior value, and the id is unchanged. -/
theorem c2_put_single_field (s : RepoState) (i v : String) (a : Article)
    (h : findById s i = some a) :
    (putHandler s i { title := some v, authorId := none }).resp
      = Resp.articleResp { id := a.id, title := v, authorId := a.authorId } 200 ∧
    (putHandler s i { title := none, authorId := some v }).resp
      = Resp.articleResp { id := a.id, title := a.title, authorId := v } 200 := by
  simp [putHandler, h, applyPatch]

theorem c2_put_single_field_witness :
    findById [{ id := "1", title := "t", authorId := "u" }] "1"
      = some { id := "1", title := "t", authorId := "u" } ∧
    (putHandler [{ id := "1", title := "t", authorId := "u" }] "1"
        { title := some "t2", authorId := none }).resp
      = Resp.articleResp { id := "1", title := "t2", authorId := "u" } 200 := by
  refine ⟨by decide, ?_⟩
  exact (c2_put_single_field [{ id := "1", title := "t", authorId := "u" }] "1" "t2"
    { id := "1", title := "t", authorId := "u" } (by decide)).1

/-- Claim C3: POST with a validated id-less body invokes create with exactly
those fields and returns 200 with the stored record, whose id is non-empty and
previously unseen and whose other fields are the submitted values exactly. -/
theorem c3_post_creates (s : RepoState) (d : ArticleData) :
    (postHandler s d).resp
      = Resp.articleResp { id := freshId s, title := d.title, authorId := d.authorId } 200 ∧
    (postHandler s d).state
      = s ++ [{ id := freshId s, title := d.title, authorId := d.authorId }] ∧
    (postHandler s d).calls = [RepoOp.createOp d] ∧
    freshId s ≠ "" ∧
    ∀ a ∈ s, a.id ≠ freshId s :=
  ⟨rfl, rfl, rfl, freshId_ne_empty s, fun _ h => freshId_not_used h⟩

theorem c3_post_creates_witness :
    (postHandler [] { title := "T", authorId := "u1" }).resp
      = Resp.articleResp { id := freshId [], title := "T", authorId := "u1" } 200 :=
  (c3_post_creates [] { title := "T", authorId := "u1" }).1

/-- Claim C4: for every id whose findById yields an article, GET /:id returns
200 with that article as the payload, and the article id equals the path id. -/
theorem c4_get_existing (s : RepoState) (i : String) (a : Article)
    (h : findById s i = some a) :
    (getByIdHandler s i).resp = Resp.articleResp a 200 ∧ a.id = i := by
  constructor
  · simp [getByIdHandler, h]
  · have h1 : List.find? (fun x => x.id == i) s = some a := h
    have h2 := List.find?_some h1
    have h3 : (a.id == i) = true := h2
    exact eq_of_beq h3

theorem c4_get_existing_witness :
    findById [{ id := "1", title := "t", authorId := "u" }] "1"
      = some { id := "1", title := "t", authorId := "u" } ∧
    (getByIdHandler [{ id := "1", title := "t", authorId := "u" }] "1").resp
      = Resp.articleResp { id := "1", title := "t", authorId := "u" } 200 :=
  ⟨by decide,
   (c4_get_existing [{ id := "1", title := "t", authorId := "u" }] "1"
     { id := "1", title := "t", authorId := "u" } (by decide)).1⟩

/-- Claim C5 as stated is false: when authorId is provided as the empty string
the handler returns the unfiltered findAll result, which differs from the
findByAuthorId result on a state holding an article with a non-empty author. -/
theorem c5_counterexample :
    (listHandler [{ id := "1", title := "t", authorId := "u" }] (some "")).resp
      ≠ Resp.articlesResp
          (findByAuthorId [{ id := "1", title := "t", authorId := "u" }] "") 200 := by
  decide

/-- Claim C5 (amended): if authorId is provided and non-empty, the response is
the findByAuthorId result; if it is absent or the empty string, the response
is the findAll result; in every case status 200 with an articles payload. -/
theorem c5_list_dispatch (s : RepoState) (q : Option String) (A : String)
    (h : A ≠ "") :
    (listHandler s (some A)).resp = Resp.articlesResp (findByAuthorId s A) 200 ∧
    (listHandler s none).resp = Resp.articlesResp (findAll s) 200 ∧
    (listHandler s (some "")).resp = Resp.articlesResp (findAll s) 200 ∧
    statusOf (listHandler s q).resp = 200 := by
  refine ⟨by simp [listHandler, h], rfl, rfl, ?_⟩
  cases q with
  | none => rfl
  | some a =>
      by_cases hb : a = "" <;> simp [listHandler, statusOf, hb]

theorem c5_list_dispatch_witness :
    ("u1" : String) ≠ "" ∧
    (listHandler [{ id := "1", title := "t", authorId := "u1" }] (some "u1")).resp
      = Resp.articlesResp
          (findByAuthorId [{ id := "1", title := "t", authorId := "u1" }] "u1") 200 :=
  ⟨by decide,
   (c5_list_dispatch [{ id := "1", title := "t", authorId := "u1" }] none "u1"
     (by decide)).1⟩

/-- Claim C6: for every id whose findById yields an article, DELETE /:id
invokes delete on that id and returns 200 with the deletion message payload. -/
theorem c6_delete_existing (s : RepoState) (i : String) (a : Article)
    (h : findById s i = some a) :
    (deleteHandler s i).resp = Resp.messageResp "Article deleted successfully" 200 ∧
    (deleteHandler s i).calls = [RepoOp.findByIdOp i, RepoOp.deleteOp i] ∧
    (deleteHandler s i).state = repoDelete s i := by
  simp [deleteHandler, h]

theorem c6_delete_existing_witness :
    findById [{ id := "1", title := "t", authorId := "u" }] "1"
      = some { id := "1", title := "t", authorId := "u" } ∧
    (deleteHandler [{ id := "1", title := "t", authorId := "u" }] "1").resp
      = Resp.messageResp "Article deleted successfully" 200 :=
  ⟨by decide,
   (c6_delete_existing [{ id := "1", title := "t", authorId := "u" }] "1"
     { id := "1", title := "t", authorId := "u" } (by decide)).1⟩

/-- Claim C7: a client-supplied id never reaches the repository: the create
input shape carries no id field and the created id is freshId of the state
alone, independent of the body; the update input shape carries no id field and
the updated record keeps the prior id. -/
theorem c7_id_server_controlled (s : RepoState) (d : ArticleData) (i : String)
    (p : ArticlePatch) (a : Article) (h : findById s i = some a) :
    (postHandler s d).resp
      = Resp.articleResp { id := freshId s, title := d.title, authorId := d.authorId } 200 ∧
    (putHandler s i p).resp = Resp.articleResp (applyPatch a p) 200 ∧
    (applyPatch a p).id = a.id := by
  refine ⟨rfl, ?_, rfl⟩
  simp [putHandler, h]

theorem c7_id_server_controlled_witness :
    findById [{ id := "1", title := "t", authorId := "u" }] "1"
      = some { id := "1", title := "t", authorId := "u" } ∧
    (applyPatch { id := "1", title := "t", authorId := "u" }
        { title := some "t2", authorId := none }).id = "1" :=
  ⟨by decide,
   (c7_id_server_controlled [{ id := "1", title := "t", authorId := "u" }]
     { title := "T", authorId := "u1" } "1" { title := some "t2", authorId := none }
     { id := "1", title := "t", authorId := "u" } (by decide)).2.2⟩

/-- Claim C8 as stated is false: for the author identifier given as the empty
string, the handler returns all articles, not the subset of GET / results
whose author equals the empty string. -/
theorem c8_counterexample :
    (listHandler [{ id := "1", title := "t", authorId := "u" }] (some "")).resp
      ≠ Resp.articlesResp
          ((findAll [{ id := "1", title := "t", authorId := "u" }]).filter
            (fun x => x.authorId == "")) 200 := by
  decide

/-- Claim C8 (amended): for every non-empty author identifier A, the articles
of GET /?authorId=A are exactly the subset of the GET / results whose author
equals A, with status 200, and an empty subset yields an empty list, not an
error. -/
theorem c8_filter_is_subset (s : RepoState) (A : String) (h : A ≠ "") :
    (listHandler s (some A)).resp
      = Resp.articlesResp ((findAll s).filter (fun x => x.authorId == A)) 200 ∧
    statusOf (listHandler s (some A)).resp = 200 ∧
    ((∀ x ∈ s, x.authorId ≠ A) →
      (listHandler s (some A)).resp = Resp.articlesResp [] 200) := by
  refine ⟨by simp [listHandler, h, findByAuthorId, findAll], ?_, ?_⟩
  · simp [listHandler, h, statusOf]
  · intro hall
    have hnil : findByAuthorId s A = [] := by
      simp [findByAuthorId, List.filter_eq_nil_iff]
      exact hall
    simp [listHandler, h, hnil]

theorem c8_filter_is_subset_witness :
    ("u1" : String) ≠ "" ∧
    (listHandler [{ id := "1", title := "t", authorId := "u1" }] (some "u1")).resp
      = Resp.articlesResp
          ((findAll [{ id := "1", title := "t", authorId := "u1" }]).filter
            (fun x => x.authorId == "u1")) 200 :=
  ⟨by decide,
   (c8_filter_is_subset [{ id := "1", title := "t", authorId := "u1" }] "u1"
     (by decide)).1⟩

/-- Claim C9: a DELETE /:id that returned status 200, followed immediately by
GET /:id on the resulting state, yields 404 "Article not found". -/
theorem c9_delete_then_get (s : RepoState) (i : String)
    (h : statusOf (deleteHandler s i).resp = 200) :
    (getByIdHandler (deleteHandler s i).state i).resp
      = Resp.textResp "Article not found" 404 := by
  cases hf : findById s i with
  | none => simp [deleteHandler, hf, statusOf] at h
  | some a =>
      have hd : (deleteHandler s i).state = repoDelete s i := by
        simp [deleteHandler, hf]
      rw [hd]
      simp [getByIdHandler, findById_repoDelete s i]

theorem c9_delete_then_get_witness :
    statusOf (deleteHandler [{ id := "1", title := "t", authorId := "u" }] "1").resp
      = 200 ∧
    (getByIdHandler
        (deleteHandler [{ id := "1", title := "t", authorId := "u" }] "1").state
        "1").resp
      = Resp.textResp "Article not found" 404 :=
  ⟨by decide,
   c9_delete_then_get [{ id := "1", title := "t", authorId := "u" }] "1" (by decide)⟩

/-- Claim C10: when the query supplies authorId as the empty string, the JS
truthiness test selects the unfiltered branch, so the response is the findAll
result and the only repository call is findAll. -/
theorem c10_empty_author_unfiltered (s : RepoState) :
    (listHandler s (some "")).resp = Resp.articlesResp (findAll s) 200 ∧
    (listHandler s (some "")).calls = [RepoOp.findAllOp] := by
  constructor <;> rfl

end ArticlesApi
